import Mathlib

/-!
# Verification of the influxdb3 Terraform provider's client/CRUD layer

Shallow embedding of the Go sources of `terraform-provider-influxdb3`:

* `internal/sdk/influxdb3/client.go` — HTTP client construction (`New`) and
  the request/status plumbing (`makeAPICall`);
* `internal/sdk/influxdb3/config.go` — the Database and Token CRUD
  operations and their status-code error mapping;
* `internal/provider/provider.go` and the SDK-based provider variant —
  configuration resolution (environment variables vs Terraform config),
  missing-value checks and UUID validation;
* `internal/provider/database_resource.go`, `token_resource.go` — the
  plan/state mapping helpers (`getPartitionTemplate`, `getPermissions`)
  and request-parameter construction of Create/Update.

Conventions: Go `[]T` slices are `GoSlice T = Option (List T)` so that the
`nil` slice and the empty non-nil slice stay distinguishable (they marshal
differently and the nil-vs-empty distinction is what some claims are
about). Machine integers are `Int`/`Nat` (no arithmetic near overflow
occurs in this code). Fallible Go functions return `Except`/`Option`.
HTTP exchanges are values of `HttpOutcome`: either a transport failure
(which in Go surfaces as a `*url.Error`, whose message always embeds the
quoted request URL) or a response with a status code and a body.
-/

namespace Influx

/-! ## Decimal rendering of integers (model of `fmt.Sprintf("%d", n)`)

Implemented with explicit fuel so that it reduces inside the kernel;
`natDecAux_inj` proves the representation injective, which is what the
string-matching special cases in `config.go` rely on. -/

def digitToChar (d : Nat) : Char := Char.ofNat (48 + d)

def natDecAux : Nat → Nat → List Char
  | 0, _ => []
  | fuel + 1, n => if n = 0 then [] else natDecAux fuel (n / 10) ++ [digitToChar (n % 10)]

/-- Decimal representation of a natural number, as printed by Go's `%d`. -/
def natDec (n : Nat) : String := if n = 0 then "0" else String.mk (natDecAux n n)

theorem natDecAux_eq_nil {f n : Nat} (hf : n ≤ f) : natDecAux f n = [] ↔ n = 0 := by
  constructor
  · intro h
    cases f with
    | zero => omega
    | succ f =>
      by_contra hn
      simp only [natDecAux, if_neg hn] at h
      exact absurd h (by simp)
  · intro h
    subst h
    cases f <;> simp [natDecAux]

theorem digitToChar_inj : ∀ d < 10, ∀ e < 10, digitToChar d = digitToChar e → d = e := by
  decide

theorem natDecAux_inj : ∀ f1 m, m ≤ f1 → ∀ f2 n, n ≤ f2 →
    natDecAux f1 m = natDecAux f2 n → m = n := by
  intro f1
  induction f1 with
  | zero =>
    intro m hm f2 n hn h
    interval_cases m
    simp only [natDecAux] at h
    exact ((natDecAux_eq_nil hn).mp h.symm).symm
  | succ f ih =>
    intro m hm f2 n hn h
    by_cases hm0 : m = 0
    · subst hm0
      simp only [natDecAux, if_pos rfl] at h
      exact ((natDecAux_eq_nil hn).mp h.symm).symm
    · cases f2 with
      | zero =>
        interval_cases n
        rw [natDecAux] at h
        exact absurd ((natDecAux_eq_nil hm).mp h) hm0
      | succ g =>
        by_cases hn0 : n = 0
        · subst hn0
          simp only [natDecAux, if_pos rfl, if_neg hm0] at h
          simp at h
        · simp only [natDecAux, if_neg hm0, if_neg hn0] at h
          have hlen : (natDecAux f (m / 10)).length = (natDecAux g (n / 10)).length := by
            have := congrArg List.length h
            simp at this
            omega
          obtain ⟨h1, h2⟩ := List.append_inj h (by omega)
          have hd : m % 10 = n % 10 :=
            digitToChar_inj (m % 10) (Nat.mod_lt _ (by omega)) (n % 10)
              (Nat.mod_lt _ (by omega)) (by simpa using h2)
          have h10 : (1 : Nat) < 10 := by omega
          have hmlt : m / 10 < m := Nat.div_lt_self (Nat.pos_of_ne_zero hm0) h10
          have hnlt : n / 10 < n := Nat.div_lt_self (Nat.pos_of_ne_zero hn0) h10
          have hq : m / 10 = n / 10 := ih (m / 10) (by omega) g (n / 10) (by omega) h1
          omega

theorem natDec_inj {m n : Nat} (h : natDec m = natDec n) : m = n := by
  by_cases hm : m = 0 <;> by_cases hn : n = 0
  · omega
  · subst hm
    simp only [natDec, if_pos rfl, if_neg hn] at h
    have hdata : natDecAux n n = ['0'] := (congrArg String.data h).symm
    cases hlast : n with
    | zero => omega
    | succ k =>
      rw [hlast] at hdata
      simp only [natDecAux, if_neg (Nat.succ_ne_zero k)] at hdata
      have hlen : (natDecAux k ((k + 1) / 10)).length = 0 := by
        have hq := congrArg List.length hdata
        simp only [List.length_append, List.length_cons, List.length_nil] at hq
        omega
      have hpre : natDecAux k ((k + 1) / 10) = [] := List.eq_nil_of_length_eq_zero hlen
      rw [hpre] at hdata
      simp only [List.nil_append, List.cons.injEq] at hdata
      have hz : (k + 1) / 10 = 0 := by
        refine (natDecAux_eq_nil ?_).mp hpre
        have := Nat.div_le_self (k + 1) 10
        omega
      have : (k + 1) % 10 = 0 :=
        digitToChar_inj _ (Nat.mod_lt _ (by omega)) 0 (by omega) hdata.1
      omega
  · subst hn
    simp only [natDec, if_pos rfl, if_neg hm] at h
    have hdata : natDecAux m m = ['0'] := congrArg String.data h
    cases hlast : m with
    | zero => omega
    | succ k =>
      rw [hlast] at hdata
      simp only [natDecAux, if_neg (Nat.succ_ne_zero k)] at hdata
      have hlen : (natDecAux k ((k + 1) / 10)).length = 0 := by
        have hq := congrArg List.length hdata
        simp only [List.length_append, List.length_cons, List.length_nil] at hq
        omega
      have hpre : natDecAux k ((k + 1) / 10) = [] := List.eq_nil_of_length_eq_zero hlen
      rw [hpre] at hdata
      simp only [List.nil_append, List.cons.injEq] at hdata
      have hz : (k + 1) / 10 = 0 := by
        refine (natDecAux_eq_nil ?_).mp hpre
        have := Nat.div_le_self (k + 1) 10
        omega
      have : (k + 1) % 10 = 0 :=
        digitToChar_inj _ (Nat.mod_lt _ (by omega)) 0 (by omega) hdata.1
      omega
  · have hdata : natDecAux m m = natDecAux n n := by
      simp only [natDec, if_neg hm, if_neg hn] at h
      exact congrArg String.data h
    exact natDecAux_inj m m le_rfl n n le_rfl hdata

/-! ## Go slices

`GoSlice α` distinguishes the Go `nil` slice from a non-nil (possibly
empty) slice; `range` iterates over `elems`, and `append` always yields a
non-nil slice, as in Go. -/

abbrev GoSlice (α : Type) : Type := Option (List α)

def GoSlice.nil {α : Type} : GoSlice α := none

def GoSlice.mk {α : Type} (l : List α) : GoSlice α := some l

/-- The elements a Go `range` loop sees: a nil slice has none. -/
def GoSlice.elems {α : Type} : GoSlice α → List α
  | none => []
  | some l => l

/-- Go's `append(s, x)`: the result is never nil. -/
def goAppend {α : Type} (s : GoSlice α) (x : α) : GoSlice α := some (s.elems ++ [x])

/-- A Go loop `for _, x := range l { s = append(s, f(x)) }` starting from
slice `s`. -/
def rangeAppend {α β : Type} (f : α → β) (s : GoSlice β) (l : List α) : GoSlice β :=
  l.foldl (fun acc x => goAppend acc (f x)) s

theorem rangeAppend_eq {α β : Type} (f : α → β) (l : List α) :
    ∀ s : GoSlice β, rangeAppend f s l
      = match l with
        | [] => s
        | _ :: _ => some (s.elems ++ l.map f) := by
  induction l with
  | nil => intro s; rfl
  | cons x xs ih =>
    intro s
    have hstep : rangeAppend f s (x :: xs) = rangeAppend f (goAppend s (f x)) xs := rfl
    rw [hstep, ih]
    cases xs with
    | nil => simp [goAppend]
    | cons y ys => simp [goAppend, GoSlice.elems]

theorem rangeAppend_elems {α β : Type} (f : α → β) (l : List α) (s : GoSlice β) :
    (rangeAppend f s l).elems = s.elems ++ l.map f := by
  rw [rangeAppend_eq]
  cases l with
  | nil => simp
  | cons x xs => simp [GoSlice.elems]

/-! ## HTTP exchanges and `makeAPICall` (client.go lines 60–84)

A transport failure in Go (`http.Client.Do`, or the URL parse inside
`http.NewRequest`) always surfaces as a `*url.Error`, whose `Error()` is
`fmt.Sprintf("%s %q: %s", e.Op, e.URL, e.Err)` — it always embeds the
request URL in double quotes.  `HttpOutcome.response` is an exchange that
produced a status code and a (fully read) body. -/

inductive HttpOutcome : Type where
  | failure (op url msg : String)
  | response (status : Nat) (body : String)
deriving DecidableEq

/-- The `Error()` string of a Go `*url.Error`. -/
def urlErrorString (op url msg : String) : String :=
  op ++ " \"" ++ url ++ "\": " ++ msg

/-- The `"unexpected status code: %d"` error of `makeAPICall`. -/
def unexpectedStatus (status : Nat) : String :=
  "unexpected status code: " ++ natDec status

/-- client.go lines 60–84: issue the request; a transport failure is
returned as-is; a non-200 status becomes the generic status error;
otherwise the response body is returned. -/
def makeAPICall (o : HttpOutcome) : Except String String :=
  match o with
  | .failure op url msg => .error (urlErrorString op url msg)
  | .response status body =>
    if status ≠ 200 then .error (unexpectedStatus status)
    else .ok body

/-! ### Token API error mapping (config.go, token part) -/

/-- config.go lines 55–73 (`CreateToken`): errors from `makeAPICall` are
returned unchanged (the 200 body is then JSON-decoded, not modelled
here). -/
def CreateToken (o : HttpOutcome) : Except String String :=
  match makeAPICall o with
  | .ok b => .ok b
  | .error e => .error e

/-- config.go lines 75–84 (`DeleteToken`): the literal error string for
status 204 is converted to success; every other error is wrapped as
`error deleting token: %w`. -/
def DeleteToken (o : HttpOutcome) : Except String Unit :=
  match makeAPICall o with
  | .ok _ => .ok ()
  | .error e =>
    if e = "unexpected status code: 204" then .ok ()
    else .error ("error deleting token: " ++ e)

/-- config.go lines 86–98 (`GetTokens`): errors returned unchanged. -/
def GetTokens (o : HttpOutcome) : Except String String :=
  match makeAPICall o with
  | .ok b => .ok b
  | .error e => .error e

/-- config.go lines 100–115 (`GetTokenByID`): the literal error string for
status 404 becomes `error getting token: <id> not found`; every other
error is returned unchanged. -/
def GetTokenByID (tokenID : String) (o : HttpOutcome) : Except String String :=
  match makeAPICall o with
  | .ok b => .ok b
  | .error e =>
    if e = "unexpected status code: 404" then
      .error ("error getting token: " ++ tokenID ++ " not found")
    else .error e

/-- config.go lines 117–135 (`UpdateToken`): errors returned unchanged. -/
def UpdateToken (o : HttpOutcome) : Except String String :=
  match makeAPICall o with
  | .ok b => .ok b
  | .error e => .error e

/-! ### Database API error mapping (config.go, database part) -/

/-- config.go lines 182–203 (`CreateDatabase`): the literal error string
for status 400 becomes `bad request, check your input`; every other error
is returned unchanged. -/
def CreateDatabase (o : HttpOutcome) : Except String String :=
  match makeAPICall o with
  | .ok b => .ok b
  | .error e =>
    if e = "unexpected status code: 400" then .error "bad request, check your input"
    else .error e

/-- config.go lines 205–214 (`DeleteDatabase`): status 204 converted to
success; every other error wrapped as `error deleting database: %w`. -/
def DeleteDatabase (o : HttpOutcome) : Except String Unit :=
  match makeAPICall o with
  | .ok _ => .ok ()
  | .error e =>
    if e = "unexpected status code: 204" then .ok ()
    else .error ("error deleting database: " ++ e)

/-- config.go lines 216–228 (`GetDatabases`): errors returned unchanged. -/
def GetDatabases (o : HttpOutcome) : Except String String :=
  match makeAPICall o with
  | .ok b => .ok b
  | .error e => .error e

/-- config.go lines 244–262 (`UpdateDatabase`): errors returned unchanged. -/
def UpdateDatabase (o : HttpOutcome) : Except String String :=
  match makeAPICall o with
  | .ok b => .ok b
  | .error e => .error e

/-! ### Facts about the error strings -/

theorem urlErrorString_ne_unexpected (op url msg : String) (status : Nat) :
    urlErrorString op url msg ≠ unexpectedStatus status := by
  intro h
  have hq : '"' ∈ (urlErrorString op url msg).data := by
    have : (urlErrorString op url msg).data
        = op.data ++ (" \"").data ++ url.data ++ ("\": ").data ++ msg.data := by
      simp [urlErrorString]
    rw [this]
    simp
  rw [h] at hq
  have hdec : (unexpectedStatus status).data
      = ("unexpected status code: ").data ++ (natDec status).data := by
    simp [unexpectedStatus]
  rw [hdec] at hq
  rcases List.mem_append.mp hq with h1 | h2
  · exact absurd h1 (by decide)
  · have : ∀ c ∈ (natDec status).data, c = '0' ∨ c ∈ ['1','2','3','4','5','6','7','8','9'] := by
      intro c hc
      unfold natDec at hc
      by_cases h0 : status = 0
      · simp [h0] at hc
        simp [hc]
      · simp only [if_neg h0] at hc
        have : ∀ f n, n ≤ f → ∀ c ∈ natDecAux f n,
            c = '0' ∨ c ∈ ['1','2','3','4','5','6','7','8','9'] := by
          intro f
          induction f with
          | zero => intro n hn c hc; interval_cases n; simp [natDecAux] at hc
          | succ f ih =>
            intro n hn c hc
            by_cases hn0 : n = 0
            · simp [natDecAux, hn0] at hc
            · simp only [natDecAux, if_neg hn0, List.mem_append] at hc
              rcases hc with hc | hc
              · have hlt : n / 10 < n := Nat.div_lt_self (Nat.pos_of_ne_zero hn0) (by omega)
                exact ih (n / 10) (by omega) c hc
              · have hb : n % 10 < 10 := Nat.mod_lt _ (by omega)
                have : ∀ d < 10, digitToChar d = '0'
                    ∨ digitToChar d ∈ ['1','2','3','4','5','6','7','8','9'] := by decide
                simp only [List.mem_singleton] at hc
                subst hc
                exact this (n % 10) hb
        exact this status status le_rfl c hc
    have := this '"' h2
    simp at this

theorem unexpectedStatus_inj {m n : Nat} (h : unexpectedStatus m = unexpectedStatus n) :
    m = n := by
  apply natDec_inj
  apply String.ext
  have hd := congrArg String.data h
  simp only [unexpectedStatus, String.data_append] at hd
  exact List.append_cancel_left hd

theorem unexpectedStatus_204 : unexpectedStatus 204 = "unexpected status code: 204" := by decide

theorem unexpectedStatus_400 : unexpectedStatus 400 = "unexpected status code: 400" := by decide

theorem unexpectedStatus_404 : unexpectedStatus 404 = "unexpected status code: 404" := by decide

theorem DeleteToken_response (st : Nat) (b : String) :
    DeleteToken (HttpOutcome.response st b)
      = if st = 200 ∨ st = 204 then Except.ok ()
        else Except.error ("error deleting token: " ++ unexpectedStatus st) := by
  by_cases h200 : st = 200
  · subst h200
    simp [DeleteToken, makeAPICall]
  · by_cases h204 : st = 204
    · subst h204
      simp [DeleteToken, makeAPICall, ← unexpectedStatus_204]
    · have hne : unexpectedStatus st ≠ "unexpected status code: 204" := by
        rw [← unexpectedStatus_204]
        intro h
        exact h204 (unexpectedStatus_inj h)
      simp [DeleteToken, makeAPICall, h200, h204, hne]

theorem DeleteDatabase_response (st : Nat) (b : String) :
    DeleteDatabase (HttpOutcome.response st b)
      = if st = 200 ∨ st = 204 then Except.ok ()
        else Except.error ("error deleting database: " ++ unexpectedStatus st) := by
  by_cases h200 : st = 200
  · subst h200
    simp [DeleteDatabase, makeAPICall]
  · by_cases h204 : st = 204
    · subst h204
      simp [DeleteDatabase, makeAPICall, ← unexpectedStatus_204]
    · have hne : unexpectedStatus st ≠ "unexpected status code: 204" := by
        rw [← unexpectedStatus_204]
        intro h
        exact h204 (unexpectedStatus_inj h)
      simp [DeleteDatabase, makeAPICall, h200, h204, hne]

theorem DeleteToken_failure (op url msg : String) :
    DeleteToken (HttpOutcome.failure op url msg)
      = Except.error ("error deleting token: " ++ urlErrorString op url msg) := by
  have hne : urlErrorString op url msg ≠ "unexpected status code: 204" := by
    rw [← unexpectedStatus_204]
    exact urlErrorString_ne_unexpected op url msg 204
  simp [DeleteToken, makeAPICall, hne]

theorem DeleteDatabase_failure (op url msg : String) :
    DeleteDatabase (HttpOutcome.failure op url msg)
      = Except.error ("error deleting database: " ++ urlErrorString op url msg) := by
  have hne : urlErrorString op url msg ≠ "unexpected status code: 204" := by
    rw [← unexpectedStatus_204]
    exact urlErrorString_ne_unexpected op url msg 204
  simp [DeleteDatabase, makeAPICall, hne]

/-- **C1.** `makeAPICall` returns the response body exactly when the status
is 200, and otherwise the error `unexpected status code: N` embedding the
status; `DeleteToken`/`DeleteDatabase` additionally convert the status-204
error into success, so a delete succeeds iff the response status is 200
or 204, and any other status or transport failure is surfaced as an
error. -/
theorem C1_makeAPICall_delete_status (o : HttpOutcome) :
    (∀ b, makeAPICall o = Except.ok b ↔ o = HttpOutcome.response 200 b)
    ∧ (∀ st b, st ≠ 200 →
        makeAPICall (HttpOutcome.response st b) = Except.error (unexpectedStatus st))
    ∧ (DeleteToken o = Except.ok ()
        ↔ ∃ st b, o = HttpOutcome.response st b ∧ (st = 200 ∨ st = 204))
    ∧ (DeleteDatabase o = Except.ok ()
        ↔ ∃ st b, o = HttpOutcome.response st b ∧ (st = 200 ∨ st = 204))
    ∧ (∀ op url msg, o = HttpOutcome.failure op url msg →
        DeleteToken o = Except.error ("error deleting token: " ++ urlErrorString op url msg)
        ∧ DeleteDatabase o
            = Except.error ("error deleting database: " ++ urlErrorString op url msg)) := by
  refine ⟨?_, ?_, ?_, ?_, ?_⟩
  · intro b
    cases o with
    | failure op url msg =>
      simp [makeAPICall]
    | response st body =>
      by_cases h : st = 200
      · subst h
        simp [makeAPICall]
      · simp [makeAPICall, h]
  · intro st b h
    simp [makeAPICall, h]
  · cases o with
    | failure op url msg =>
      rw [DeleteToken_failure]
      simp
    | response st body =>
      rw [DeleteToken_response]
      by_cases h : st = 200 ∨ st = 204
      · simp [h]
      · simp [h]
  · cases o with
    | failure op url msg =>
      rw [DeleteDatabase_failure]
      simp
    | response st body =>
      rw [DeleteDatabase_response]
      by_cases h : st = 200 ∨ st = 204
      · simp [h]
      · simp [h]
  · intro op url msg h
    subst h
    exact ⟨DeleteToken_failure op url msg, DeleteDatabase_failure op url msg⟩

/-- Witness for C1 at concrete exchanges: a 200 response returns the body,
a 503 response gives the generic status error, a 204 delete succeeds, and
a transport failure surfaces as a delete error. -/
theorem C1_witness :
    makeAPICall (HttpOutcome.response 503 "x") = Except.error "unexpected status code: 503"
    ∧ DeleteToken (HttpOutcome.response 204 "") = Except.ok ()
    ∧ DeleteDatabase (HttpOutcome.failure "Get" "https://h/databases/d" "timeout")
        = Except.error "error deleting database: Get \"https://h/databases/d\": timeout" := by
  have h1 := (C1_makeAPICall_delete_status (HttpOutcome.response 503 "x")).2.1 503 "x"
    (by omega)
  have h2 := (C1_makeAPICall_delete_status (HttpOutcome.response 204 "")).2.2.1.mpr
    ⟨204, "", rfl, Or.inr rfl⟩
  have h3 := ((C1_makeAPICall_delete_status
      (HttpOutcome.failure "Get" "https://h/databases/d" "timeout")).2.2.2.2
    "Get" "https://h/databases/d" "timeout" rfl).2
  refine ⟨?_, h2, ?_⟩
  · rw [h1]
    exact congrArg Except.error (by decide)
  · rw [h3]
    exact congrArg Except.error (by decide)

theorem CreateDatabase_response (st : Nat) (b : String) (h : st ≠ 200) :
    CreateDatabase (HttpOutcome.response st b)
      = if st = 400 then Except.error "bad request, check your input"
        else Except.error (unexpectedStatus st) := by
  by_cases h400 : st = 400
  · subst h400
    simp [CreateDatabase, makeAPICall, ← unexpectedStatus_400]
  · have hne : unexpectedStatus st ≠ "unexpected status code: 400" := by
      rw [← unexpectedStatus_400]
      intro hq
      exact h400 (unexpectedStatus_inj hq)
    simp [CreateDatabase, makeAPICall, h, h400, hne]

theorem GetTokenByID_response (tokenID : String) (st : Nat) (b : String) (h : st ≠ 200) :
    GetTokenByID tokenID (HttpOutcome.response st b)
      = if st = 404 then Except.error ("error getting token: " ++ tokenID ++ " not found")
        else Except.error (unexpectedStatus st) := by
  by_cases h404 : st = 404
  · subst h404
    simp [GetTokenByID, makeAPICall, ← unexpectedStatus_404]
  · have hne : unexpectedStatus st ≠ "unexpected status code: 404" := by
      rw [← unexpectedStatus_404]
      intro hq
      exact h404 (unexpectedStatus_inj hq)
    simp [GetTokenByID, makeAPICall, h, h404, hne]

/-- **C7.** The only special-cased statuses are 204 (the two deletes),
400 (`CreateDatabase`) and 404 (`GetTokenByID`); every other non-200
status in every operation surfaces the generic
`unexpected status code: N` error (the deletes wrap it in their
`error deleting …:` prefix), and `CreateToken`, `UpdateToken`,
`UpdateDatabase`, `GetTokens`, `GetDatabases` have no special case at
all. -/
theorem C7_status_special_cases (st : Nat) (body tokenID : String) (h : st ≠ 200) :
    CreateDatabase (HttpOutcome.response st body)
      = (if st = 400 then Except.error "bad request, check your input"
         else Except.error (unexpectedStatus st))
    ∧ GetTokenByID tokenID (HttpOutcome.response st body)
      = (if st = 404 then Except.error ("error getting token: " ++ tokenID ++ " not found")
         else Except.error (unexpectedStatus st))
    ∧ DeleteToken (HttpOutcome.response st body)
      = (if st = 204 then Except.ok ()
         else Except.error ("error deleting token: " ++ unexpectedStatus st))
    ∧ DeleteDatabase (HttpOutcome.response st body)
      = (if st = 204 then Except.ok ()
         else Except.error ("error deleting database: " ++ unexpectedStatus st))
    ∧ CreateToken (HttpOutcome.response st body) = Except.error (unexpectedStatus st)
    ∧ UpdateToken (HttpOutcome.response st body) = Except.error (unexpectedStatus st)
    ∧ UpdateDatabase (HttpOutcome.response st body) = Except.error (unexpectedStatus st)
    ∧ GetTokens (HttpOutcome.response st body) = Except.error (unexpectedStatus st)
    ∧ GetDatabases (HttpOutcome.response st body) = Except.error (unexpectedStatus st) := by
  refine ⟨CreateDatabase_response st body h, GetTokenByID_response tokenID st body h,
    ?_, ?_, ?_, ?_, ?_, ?_, ?_⟩
  · rw [DeleteToken_response]
    by_cases h204 : st = 204
    · simp [h204]
    · have : ¬(st = 200 ∨ st = 204) := by omega
      simp [this, h204, h]
  · rw [DeleteDatabase_response]
    by_cases h204 : st = 204
    · simp [h204]
    · have : ¬(st = 200 ∨ st = 204) := by omega
      simp [this, h204, h]
  · simp [CreateToken, makeAPICall, h]
  · simp [UpdateToken, makeAPICall, h]
  · simp [UpdateDatabase, makeAPICall, h]
  · simp [GetTokens, makeAPICall, h]
  · simp [GetDatabases, makeAPICall, h]

/-- Witness for C7 at the concrete special statuses 400, 404, 204 and at
the untreated status 500. -/
theorem C7_witness :
    CreateDatabase (HttpOutcome.response 400 "") = Except.error "bad request, check your input"
    ∧ GetTokenByID "tok1" (HttpOutcome.response 404 "")
        = Except.error "error getting token: tok1 not found"
    ∧ DeleteToken (HttpOutcome.response 204 "") = Except.ok ()
    ∧ CreateToken (HttpOutcome.response 500 "x")
        = Except.error "unexpected status code: 500" := by
  have h400 := (C7_status_special_cases 400 "" "tok1" (by omega)).1
  have h404 := (C7_status_special_cases 404 "" "tok1" (by omega)).2.1
  have h204 := (C7_status_special_cases 204 "" "tok1" (by omega)).2.2.1
  have h500 := (C7_status_special_cases 500 "x" "tok1" (by omega)).2.2.2.2.1
  refine ⟨?_, ?_, ?_, ?_⟩
  · rw [h400]
    simp
  · rw [h404]
    rw [if_pos rfl]
    exact congrArg Except.error (by decide)
  · rw [h204]
    simp
  · rw [h500]
    exact congrArg Except.error (by decide)

/-! ### C3: what `DeleteToken` actually returns on a 404

`GetTokenByID` maps 404 to the not-found error `error getting token: <id>
not found`; `DeleteToken` has no such case — it wraps the generic status
error.  `strContains` decides the presence of a substring, used to state
that the surfaced message carries no not-found wording. -/

def listInfix (pat : List Char) : List Char → Bool
  | [] => pat.isEmpty
  | c :: rest => pat.isPrefixOf (c :: rest) || listInfix pat rest

def strContains (pat s : String) : Bool := listInfix pat.data s.data

/-- **C3, counterexample.** On a DELETE answered with 404, `DeleteToken`
returns the wrapped generic status error, whose message does not contain
the not-found wording that `GetTokenByID`'s 404 error carries. -/
theorem C3_counterexample :
    DeleteToken (HttpOutcome.response 404 "")
      = Except.error "error deleting token: unexpected status code: 404"
    ∧ strContains "not found" "error deleting token: unexpected status code: 404" = false
    ∧ strContains "not found" "error getting token: tok1 not found" = true := by
  refine ⟨?_, by decide, by decide⟩
  rw [DeleteToken_response, if_neg (by decide)]
  exact congrArg Except.error (by decide)

/-- **C3, amended.** For a token id whose DELETE returns 404,
`DeleteToken` surfaces an error — deletion fails — but it is the generic
wrapped status error `error deleting token: unexpected status code: 404`,
not a not-found-specific error. -/
theorem C3_amended (body : String) :
    DeleteToken (HttpOutcome.response 404 body)
      = Except.error "error deleting token: unexpected status code: 404" := by
  rw [DeleteToken_response, if_neg (by decide)]
  exact congrArg Except.error (by decide)

/-! ## Go `path.Clean` / `path.Join` (used by `path.Join` calls in
config.go and by `New` in client.go)

Modelled from the documented transformation rules of Go's `path.Clean`
(iteratively: collapse multiple slashes, drop `.` segments, drop a non-`..`
segment followed by `..`, drop `..` segments at the root), implemented
over segment lists.  `path.Join` joins the non-empty elements with a slash
and cleans the result. -/

def splitSlashAux (cur : List Char) : List Char → List (List Char)
  | [] => [cur.reverse]
  | c :: rest =>
    if c = '/' then cur.reverse :: splitSlashAux [] rest
    else splitSlashAux (c :: cur) rest

def splitSlash (cs : List Char) : List (List Char) := splitSlashAux [] cs

def joinSlash : List (List Char) → List Char
  | [] => []
  | [s] => s
  | s :: rest => s ++ '/' :: joinSlash rest

def cleanSegsAux (rooted : Bool) : List (List Char) → List (List Char) → List (List Char)
  | acc, [] => acc.reverse
  | acc, seg :: rest =>
    if seg = [] ∨ seg = ['.'] then cleanSegsAux rooted acc rest
    else if seg = ['.', '.'] then
      match acc with
      | [] =>
        if rooted then cleanSegsAux rooted [] rest
        else cleanSegsAux rooted [['.', '.']] rest
      | top :: accTail =>
        if top = ['.', '.'] then cleanSegsAux rooted (seg :: acc) rest
        else cleanSegsAux rooted accTail rest
    else cleanSegsAux rooted (seg :: acc) rest

def isRooted : List Char → Bool
  | '/' :: _ => true
  | _ => false

def goPathClean (p : String) : String :=
  if p = "" then "."
  else
    let segs := cleanSegsAux (isRooted p.data) [] (splitSlash p.data)
    if isRooted p.data then String.mk ('/' :: joinSlash segs)
    else if segs = [] then "." else String.mk (joinSlash segs)

def goPathJoin (a b : String) : String :=
  if a ≠ "" then goPathClean (a ++ "/" ++ b)
  else if b ≠ "" then goPathClean b
  else ""

/-! ## JSON marshalling (model of `encoding/json` on the SDK structs)

`json.Marshal` writes struct fields in declaration order under their tag
names; strings are quoted with `"`, `\` and control characters escaped and
(by default) `<`, `>`, `&`, U+2028, U+2029 HTML-escaped; a nil slice
marshals as `null`, a non-nil slice as an array. -/

def hexDigitChar (n : Nat) : Char := if n < 10 then digitToChar n else Char.ofNat (87 + n)

def jsonEscapeChar (c : Char) : List Char :=
  if c = '"' then ['\\', '"']
  else if c = '\\' then ['\\', '\\']
  else if c = '\n' then ['\\', 'n']
  else if c = '\r' then ['\\', 'r']
  else if c = '\t' then ['\\', 't']
  else if c = '<' ∨ c = '>' ∨ c = '&' ∨ c.toNat < 32 then
    ['\\', 'u', '0', '0', hexDigitChar (c.toNat / 16), hexDigitChar (c.toNat % 16)]
  else if c.toNat = 0x2028 ∨ c.toNat = 0x2029 then
    ['\\', 'u', '2', '0', '2', hexDigitChar (c.toNat % 16)]
  else [c]

def jsonStr (s : String) : String :=
  "\"" ++ String.mk (s.data.flatMap jsonEscapeChar) ++ "\""

/-- Decimal rendering of a Go signed integer (JSON number / `%d`). -/
def intDec (i : Int) : String :=
  if i < 0 then "-" ++ natDec i.natAbs else natDec i.natAbs

/-! ## SDK data types (config.go) -/

/-- config.go token part, lines 50–53. -/
structure Permission where
  Action : String
  Resource : String
deriving DecidableEq

/-- config.go token part, lines 35–38. -/
structure TokenParams where
  Description : String
  Permissions : GoSlice Permission
deriving DecidableEq

/-- config.go token part, lines 40–48 (`token`). -/
structure token where
  AccessToken : String
  AccountId : String
  CreatedAt : String
  ClusterId : String
  Description : String
  Id : String
  Permissions : GoSlice Permission
deriving DecidableEq

/-- config.go database part, lines 177–180.  The Go field `Type` is spelt
`PartType` because `Type` is reserved in Lean. -/
structure PartitionTemplate where
  PartType : String
  Value : String
deriving DecidableEq

/-- config.go database part, lines 159–167 (`database`). -/
structure database where
  AccountId : String
  ClusterId : String
  Name : String
  MaxTables : Int
  MaxColumnsPerTable : Int
  RetentionPeriod : Int
  PartitionTemplate : GoSlice PartitionTemplate
deriving DecidableEq

/-- config.go database part, lines 169–175. -/
structure DatabaseParams where
  Name : String
  MaxTables : Int
  MaxColumnsPerTable : Int
  RetentionPeriod : Int
  PartitionTemplate : GoSlice PartitionTemplate
deriving DecidableEq

def marshalPermission (p : Permission) : String :=
  "\x7b\"action\":" ++ jsonStr p.Action ++ ",\"resource\":" ++ jsonStr p.Resource ++ "\x7d"

def marshalPermissions (ps : GoSlice Permission) : String :=
  match ps with
  | none => "null"
  | some l => "[" ++ String.intercalate "," (l.map marshalPermission) ++ "]"

/-- `json.Marshal` of `TokenParams` (fields `description`, `permissions`). -/
def marshalTokenParams (tp : TokenParams) : String :=
  "\x7b\"description\":" ++ jsonStr tp.Description
    ++ ",\"permissions\":" ++ marshalPermissions tp.Permissions ++ "\x7d"

def marshalPartitionTemplate (pt : PartitionTemplate) : String :=
  "\x7b\"type\":" ++ jsonStr pt.PartType ++ ",\"value\":" ++ jsonStr pt.Value ++ "\x7d"

def marshalPartitionTemplates (pts : GoSlice PartitionTemplate) : String :=
  match pts with
  | none => "null"
  | some l => "[" ++ String.intercalate "," (l.map marshalPartitionTemplate) ++ "]"

/-- `json.Marshal` of `DatabaseParams` (fields `name`, `maxTables`,
`maxColumnsPerTable`, `retentionPeriod`, `partitionTemplate`; no
`omitempty`, so a nil partition template still appears, as `null`). -/
def marshalDatabaseParams (dp : DatabaseParams) : String :=
  "\x7b\"name\":" ++ jsonStr dp.Name
    ++ ",\"maxTables\":" ++ intDec dp.MaxTables
    ++ ",\"maxColumnsPerTable\":" ++ intDec dp.MaxColumnsPerTable
    ++ ",\"retentionPeriod\":" ++ intDec dp.RetentionPeriod
    ++ ",\"partitionTemplate\":" ++ marshalPartitionTemplates dp.PartitionTemplate ++ "\x7d"

/-! ## The requests each operation issues (config.go) -/

structure Request where
  method : String
  path : String
  body : Option String
deriving DecidableEq

def TokenAPIPath : String := "tokens"

def DatabaseAPIPath : String := "databases"

def CreateTokenRequest (p : TokenParams) : Request :=
  ⟨"POST", TokenAPIPath, some (marshalTokenParams p)⟩

def DeleteTokenRequest (tokenID : String) : Request :=
  ⟨"DELETE", goPathJoin TokenAPIPath tokenID, none⟩

def GetTokensRequest : Request := ⟨"GET", TokenAPIPath, none⟩

def GetTokenByIDRequest (tokenID : String) : Request :=
  ⟨"GET", goPathJoin TokenAPIPath tokenID, none⟩

def UpdateTokenRequest (tokenID : String) (p : TokenParams) : Request :=
  ⟨"PATCH", goPathJoin TokenAPIPath tokenID, some (marshalTokenParams p)⟩

def CreateDatabaseRequest (p : DatabaseParams) : Request :=
  ⟨"POST", DatabaseAPIPath, some (marshalDatabaseParams p)⟩

def DeleteDatabaseRequest (databaseName : String) : Request :=
  ⟨"DELETE", goPathJoin DatabaseAPIPath databaseName, none⟩

def GetDatabasesRequest : Request := ⟨"GET", DatabaseAPIPath, none⟩

def UpdateDatabaseRequest (p : DatabaseParams) : Request :=
  ⟨"PATCH", goPathJoin DatabaseAPIPath p.Name, some (marshalDatabaseParams p)⟩

/-- config.go lines 230–242: `GetDatabaseByName` performs no request of
its own — the only request issued is the one of `GetDatabases`. -/
def GetDatabaseByNameRequests (_databaseName : String) : List Request :=
  [GetDatabasesRequest]

/-! ## `GetDatabaseByName` (config.go lines 230–242)

The function is parameterised by the outcome of `GetDatabases` (error, or
the decoded database list) and performs the client-side linear scan of the
source's `for` loop. -/

def findDatabase (databaseName : String) : List database → Option database
  | [] => none
  | db :: rest => if db.Name = databaseName then some db else findDatabase databaseName rest

def GetDatabaseByName (databasesResult : Except String (List database))
    (databaseName : String) : Except String database :=
  match databasesResult with
  | .error e => .error e
  | .ok dbs =>
    match findDatabase databaseName dbs with
    | some db => .ok db
    | none => .error ("error getting database: " ++ databaseName ++ " not found")

theorem findDatabase_none (databaseName : String) (dbs : List database)
    (h : ∀ db ∈ dbs, db.Name ≠ databaseName) : findDatabase databaseName dbs = none := by
  induction dbs with
  | nil => rfl
  | cons d rest ih =>
    have hd : d.Name ≠ databaseName := h d (List.mem_cons_self d rest)
    simp only [findDatabase, if_neg hd]
    exact ih fun db hdb => h db (List.mem_cons_of_mem d hdb)

theorem findDatabase_first (databaseName : String) (pre : List database) (db : database)
    (post : List database) (hpre : ∀ d ∈ pre, d.Name ≠ databaseName)
    (hdb : db.Name = databaseName) :
    findDatabase databaseName (pre ++ db :: post) = some db := by
  induction pre with
  | nil => simp [findDatabase, hdb]
  | cons d rest ih =>
    have hd : d.Name ≠ databaseName := hpre d (List.mem_cons_self d rest)
    simp only [List.cons_append, findDatabase, if_neg hd]
    exact ih fun x hx => hpre x (List.mem_cons_of_mem d hx)

/-- **C2.** `GetDatabaseByName` issues only the list request (`GET
databases`), scans the decoded list client-side returning the first
database whose `Name` matches, and reports `error getting database: <name>
not found` when the list succeeds but nothing matches. -/
theorem C2_GetDatabaseByName_scan (databaseName : String) :
    GetDatabaseByNameRequests databaseName = [GetDatabasesRequest]
    ∧ GetDatabasesRequest = { method := "GET", path := "databases", body := none }
    ∧ (∀ e, GetDatabaseByName (Except.error e) databaseName = Except.error e)
    ∧ (∀ dbs : List database, (∀ db ∈ dbs, db.Name ≠ databaseName) →
        GetDatabaseByName (Except.ok dbs) databaseName
          = Except.error ("error getting database: " ++ databaseName ++ " not found"))
    ∧ (∀ (pre : List database) (db : database) (post : List database),
        (∀ d ∈ pre, d.Name ≠ databaseName) → db.Name = databaseName →
        GetDatabaseByName (Except.ok (pre ++ db :: post)) databaseName = Except.ok db) := by
  refine ⟨rfl, rfl, fun e => rfl, ?_, ?_⟩
  · intro dbs h
    simp [GetDatabaseByName, findDatabase_none databaseName dbs h]
  · intro pre db post hpre hdb
    simp [GetDatabaseByName, findDatabase_first databaseName pre db post hpre hdb]

/-- Witness for C2: among two databases the scan returns the second (the
first match in list order), and on a miss the not-found error names the
requested database. -/
theorem C2_witness :
    GetDatabaseByName
      (Except.ok
        [{ AccountId := "a", ClusterId := "c", Name := "alpha", MaxTables := 500,
           MaxColumnsPerTable := 200, RetentionPeriod := 0, PartitionTemplate := GoSlice.nil },
         { AccountId := "a", ClusterId := "c", Name := "beta", MaxTables := 500,
           MaxColumnsPerTable := 200, RetentionPeriod := 0, PartitionTemplate := GoSlice.nil }])
      "beta"
      = Except.ok
          { AccountId := "a", ClusterId := "c", Name := "beta", MaxTables := 500,
            MaxColumnsPerTable := 200, RetentionPeriod := 0, PartitionTemplate := GoSlice.nil }
    ∧ GetDatabaseByName (Except.ok []) "beta"
        = Except.error "error getting database: beta not found" := by
  constructor
  · exact (C2_GetDatabaseByName_scan "beta").2.2.2.2
      [{ AccountId := "a", ClusterId := "c", Name := "alpha", MaxTables := 500,
         MaxColumnsPerTable := 200, RetentionPeriod := 0, PartitionTemplate := GoSlice.nil }]
      { AccountId := "a", ClusterId := "c", Name := "beta", MaxTables := 500,
        MaxColumnsPerTable := 200, RetentionPeriod := 0, PartitionTemplate := GoSlice.nil }
      [] (by intro d hd; simp at hd; rw [hd]; decide) rfl
  · have h := (C2_GetDatabaseByName_scan "beta").2.2.2.1 [] (by intro db hdb; simp at hdb)
    rw [h]
    exact congrArg Except.error (by decide)

/-! ## Terraform resource layer (token_resource.go, database_resource.go)

Terraform plan/state models: `types.String`/`types.Int64` values are
modelled by their known values (`String`/`Int`); the Go model structs'
slice-typed attributes keep the `GoSlice` representation (a Terraform
null list is the nil slice). -/

structure TokenPermissionModel where
  Action : String
  Resource : String
deriving DecidableEq

structure TokenModel where
  AccessToken : String
  AccountId : String
  CreatedAt : String
  ClusterId : String
  Description : String
  Id : String
  Permissions : GoSlice TokenPermissionModel
deriving DecidableEq

structure DatabasePartitionTemplateModel where
  PartType : String
  Value : String
deriving DecidableEq

structure DatabaseModel where
  AccountId : String
  ClusterId : String
  Name : String
  MaxTables : Int
  MaxColumnsPerTable : Int
  RetentionPeriod : Int
  PartitionTemplate : GoSlice DatabasePartitionTemplateModel
deriving DecidableEq

/-! ### token_resource.go -/

/-- token_resource.go lines 116–123 (also the identical loop in `Update`,
lines 202–209): `var permissions []influxdb3.Permission` — the slice
starts **nil** — then one `append` per planned permission. -/
def tokenPlanPermissions (plan : TokenModel) : GoSlice Permission :=
  rangeAppend (fun m => Permission.mk m.Action m.Resource) GoSlice.nil plan.Permissions.elems

/-- token_resource.go lines 125–128 / 211–214: the `TokenParams` sent to
`CreateToken`/`UpdateToken`. -/
def tokenCreateParams (plan : TokenModel) : TokenParams :=
  { Description := plan.Description, Permissions := tokenPlanPermissions plan }

/-- token_resource.go lines 286–296: the response-to-state helper; the
slice starts as the **non-nil empty** `[]TokenPermissionModel{}`. -/
def getPermissions (permissions : GoSlice Permission) : GoSlice TokenPermissionModel :=
  rangeAppend (fun p => TokenPermissionModel.mk p.Action p.Resource)
    (GoSlice.mk []) permissions.elems

/-- token_resource.go lines 139–146 (`Create`): every attribute overwritten
from the API response. -/
def tokenCreateState (plan : TokenModel) (apiResponse : token) : TokenModel :=
  { plan with
    AccessToken := apiResponse.AccessToken
    AccountId := apiResponse.AccountId
    CreatedAt := apiResponse.CreatedAt
    ClusterId := apiResponse.ClusterId
    Description := apiResponse.Description
    Id := apiResponse.Id
    Permissions := getPermissions apiResponse.Permissions }

/-- token_resource.go lines 176–182 (`Read`): same, except `AccessToken`
is kept from the prior state. -/
def tokenReadState (state : TokenModel) (readToken : token) : TokenModel :=
  { state with
    AccountId := readToken.AccountId
    CreatedAt := readToken.CreatedAt
    ClusterId := readToken.ClusterId
    Description := readToken.Description
    Id := readToken.Id
    Permissions := getPermissions readToken.Permissions }

/-- token_resource.go lines 227–232 (`Update`): same shape as `Read`, on
the plan. -/
def tokenUpdateState (plan : TokenModel) (apiResponse : token) : TokenModel :=
  { plan with
    AccountId := apiResponse.AccountId
    CreatedAt := apiResponse.CreatedAt
    ClusterId := apiResponse.ClusterId
    Description := apiResponse.Description
    Id := apiResponse.Id
    Permissions := getPermissions apiResponse.Permissions }

/-! ### database_resource.go -/

/-- database_resource.go lines 124–131 (`Create`): `partitions :=
[]influxdb3.PartitionTemplate{}` — the slice starts **non-nil empty** —
then one `append` per planned template part. -/
def databasePlanPartitions (plan : DatabaseModel) : GoSlice PartitionTemplate :=
  rangeAppend (fun m => PartitionTemplate.mk m.PartType m.Value)
    (GoSlice.mk []) plan.PartitionTemplate.elems

/-- database_resource.go lines 133–139: the `DatabaseParams` sent to
`CreateDatabase` — the planned partition template is included. -/
def databaseCreateParams (plan : DatabaseModel) : DatabaseParams :=
  { Name := plan.Name
    MaxTables := plan.MaxTables
    MaxColumnsPerTable := plan.MaxColumnsPerTable
    RetentionPeriod := plan.RetentionPeriod
    PartitionTemplate := databasePlanPartitions plan }

/-- database_resource.go lines 214–219 (`Update`): the struct literal sets
only `Name`, `MaxTables`, `MaxColumnsPerTable`, `RetentionPeriod`;
`PartitionTemplate` is left at its Go zero value, the nil slice. -/
def databaseUpdateParams (plan : DatabaseModel) : DatabaseParams :=
  { Name := plan.Name
    MaxTables := plan.MaxTables
    MaxColumnsPerTable := plan.MaxColumnsPerTable
    RetentionPeriod := plan.RetentionPeriod
    PartitionTemplate := GoSlice.nil }

/-- database_resource.go lines 290–300: the response-to-state helper; the
slice starts as the non-nil empty `[]DatabasePartitionTemplateModel{}`. -/
def getPartitionTemplate (partitionTemplate : GoSlice PartitionTemplate) :
    GoSlice DatabasePartitionTemplateModel :=
  rangeAppend (fun pt => DatabasePartitionTemplateModel.mk pt.PartType pt.Value)
    (GoSlice.mk []) partitionTemplate.elems

/-- database_resource.go lines 151–157 (`Create`). -/
def databaseCreateState (plan : DatabaseModel) (apiResponse : database) : DatabaseModel :=
  { plan with
    AccountId := apiResponse.AccountId
    ClusterId := apiResponse.ClusterId
    Name := apiResponse.Name
    MaxTables := apiResponse.MaxTables
    MaxColumnsPerTable := apiResponse.MaxColumnsPerTable
    RetentionPeriod := apiResponse.RetentionPeriod
    PartitionTemplate := getPartitionTemplate apiResponse.PartitionTemplate }

/-- database_resource.go lines 188–194 (`Read`). -/
def databaseReadState (state : DatabaseModel) (readDatabase : database) : DatabaseModel :=
  { state with
    AccountId := readDatabase.AccountId
    ClusterId := readDatabase.ClusterId
    Name := readDatabase.Name
    MaxTables := readDatabase.MaxTables
    MaxColumnsPerTable := readDatabase.MaxColumnsPerTable
    RetentionPeriod := readDatabase.RetentionPeriod
    PartitionTemplate := getPartitionTemplate readDatabase.PartitionTemplate }

/-- database_resource.go lines 232–237 (`Update`): `plan.PartitionTemplate`
is **not** assigned — the planned value is stored unchanged, and the
response's partition template is never consulted. -/
def databaseUpdateState (plan : DatabaseModel) (apiResponse : database) : DatabaseModel :=
  { plan with
    AccountId := apiResponse.AccountId
    ClusterId := apiResponse.ClusterId
    Name := apiResponse.Name
    MaxTables := apiResponse.MaxTables
    MaxColumnsPerTable := apiResponse.MaxColumnsPerTable
    RetentionPeriod := apiResponse.RetentionPeriod }

/-- database_resource.go Schema, lines 84–108: the `partition_template`
attribute is Computed+Optional with a static empty-list default, and its
plan modifiers are `UseStateForUnknown` and `RequiresReplace` (the comment
in the source: the API does not support updating partition templates). -/
structure ListAttributeSpec where
  computed : Bool
  optional : Bool
  hasStaticEmptyListDefault : Bool
  requiresReplace : Bool
  useStateForUnknown : Bool
deriving DecidableEq

def databasePartitionTemplateSchema : ListAttributeSpec :=
  { computed := true
    optional := true
    hasStaticEmptyListDefault := true
    requiresReplace := true
    useStateForUnknown := true }

theorem rangeAppend_some {α β : Type} (f : α → β) (l0 : List β) (l : List α) :
    rangeAppend f (GoSlice.mk l0) l = some (l0 ++ l.map f) := by
  rw [rangeAppend_eq]
  cases l with
  | nil => simp [GoSlice.mk]
  | cons x xs => simp [GoSlice.mk, GoSlice.elems]

/-- **C4.** The partition template is create-only: the PATCH parameters
built by the database resource's `Update` leave `PartitionTemplate` at the
nil slice, so the PATCH body carries the four updatable attributes and a
literal `null` partition template (no `{type, value}` pairs), while
`Create`'s POST parameters carry the planned template list; the schema
marks `partition_template` as requiring replacement on change. -/
theorem C4_partition_template_create_only (plan : DatabaseModel) :
    (databaseUpdateParams plan).PartitionTemplate = GoSlice.nil
    ∧ marshalDatabaseParams (databaseUpdateParams plan)
        = "\x7b\"name\":" ++ jsonStr plan.Name
          ++ ",\"maxTables\":" ++ intDec plan.MaxTables
          ++ ",\"maxColumnsPerTable\":" ++ intDec plan.MaxColumnsPerTable
          ++ ",\"retentionPeriod\":" ++ intDec plan.RetentionPeriod
          ++ ",\"partitionTemplate\":null\x7d"
    ∧ (databaseCreateParams plan).PartitionTemplate
        = some (plan.PartitionTemplate.elems.map
            (fun m => PartitionTemplate.mk m.PartType m.Value))
    ∧ databasePartitionTemplateSchema.requiresReplace = true := by
  refine ⟨rfl, ?_, ?_, rfl⟩
  · simp only [marshalDatabaseParams, databaseUpdateParams, marshalPartitionTemplates,
      GoSlice.nil]
    simp [String.append_assoc]
  · simp only [databaseCreateParams, databasePlanPartitions]
    rw [rangeAppend_some]
    simp

/-- **C9.** Token permissions round-trip in order: `Create` maps the
planned permissions one-for-one (in order) into the request parameters,
`CreateToken` marshals exactly those parameters into the POST body, and —
when the server response echoes the request's permission list — the
permission elements written back to state equal the planned ones. -/
theorem C9_token_permissions_roundtrip (plan : TokenModel) (apiResponse : token)
    (hecho : apiResponse.Permissions.elems = (tokenCreateParams plan).Permissions.elems) :
    CreateTokenRequest (tokenCreateParams plan)
      = { method := "POST", path := "tokens",
          body := some (marshalTokenParams (tokenCreateParams plan)) }
    ∧ (tokenCreateParams plan).Permissions.elems
        = plan.Permissions.elems.map (fun m => Permission.mk m.Action m.Resource)
    ∧ (tokenCreateState plan apiResponse).Permissions.elems = plan.Permissions.elems := by
  have hmap : (tokenCreateParams plan).Permissions.elems
      = plan.Permissions.elems.map (fun m => Permission.mk m.Action m.Resource) := by
    simp only [tokenCreateParams, tokenPlanPermissions]
    rw [rangeAppend_elems]
    simp [GoSlice.nil, GoSlice.elems]
  refine ⟨rfl, hmap, ?_⟩
  simp only [tokenCreateState, getPermissions]
  rw [rangeAppend_elems, hecho, hmap]
  simp only [GoSlice.mk, GoSlice.elems, List.map_map, List.nil_append]
  show List.map (fun m => m) _ = _
  exact List.map_id' _

/-- Witness for C9: a concrete plan with two permissions and a response
echoing them; the state's permission list equals the planned one. -/
theorem C9_witness :
    (tokenCreateState
      { AccessToken := "", AccountId := "", CreatedAt := "", ClusterId := "",
        Description := "d", Id := "",
        Permissions := GoSlice.mk [⟨"read", "db1"⟩, ⟨"write", "*"⟩] }
      { AccessToken := "secret", AccountId := "a", CreatedAt := "t", ClusterId := "c",
        Description := "d", Id := "tok1",
        Permissions := GoSlice.mk [⟨"read", "db1"⟩, ⟨"write", "*"⟩] }).Permissions.elems
      = [⟨"read", "db1"⟩, ⟨"write", "*"⟩] := by
  have h := (C9_token_permissions_roundtrip
    { AccessToken := "", AccountId := "", CreatedAt := "", ClusterId := "",
      Description := "d", Id := "",
      Permissions := GoSlice.mk [⟨"read", "db1"⟩, ⟨"write", "*"⟩] }
    { AccessToken := "secret", AccountId := "a", CreatedAt := "t", ClusterId := "c",
      Description := "d", Id := "tok1",
      Permissions := GoSlice.mk [⟨"read", "db1"⟩, ⟨"write", "*"⟩] }
    (by decide)).2.2
  rw [h]
  decide

/-- **C10, counterexample.** The claim also covers the database resource's
`Update`, asserting one stored `partition_template` element per response
element; but `Update` never consults the response's partition template: at
this input the response carries one template part while the stored state
keeps the plan's zero parts. -/
theorem C10_counterexample :
    ((databaseUpdateState
        { AccountId := "a", ClusterId := "c", Name := "db", MaxTables := 500,
          MaxColumnsPerTable := 200, RetentionPeriod := 0,
          PartitionTemplate := GoSlice.mk [] }
        { AccountId := "a", ClusterId := "c", Name := "db", MaxTables := 500,
          MaxColumnsPerTable := 200, RetentionPeriod := 0,
          PartitionTemplate := GoSlice.mk [⟨"tag", "region"⟩] }).PartitionTemplate).elems
      = []
    ∧ ({ AccountId := "a", ClusterId := "c", Name := "db", MaxTables := 500,
         MaxColumnsPerTable := 200, RetentionPeriod := 0,
         PartitionTemplate := GoSlice.mk [⟨"tag", "region"⟩] }
          : database).PartitionTemplate.elems.length = 1 := by
  exact ⟨rfl, rfl⟩

/-- **C10, amended.** `getPartitionTemplate` and `getPermissions` always
return a non-nil slice with one element per input element in input order;
the token resource's Create/Read/Update and the database resource's
Create/Read store exactly these response-derived lists; the database
resource's `Update` stores the plan's partition template unchanged and
does not consult the response. -/
theorem C10_state_lists_non_nil (ps : GoSlice Permission) (pt : GoSlice PartitionTemplate)
    (tplan : TokenModel) (dplan : DatabaseModel) (tresp : token) (dresp : database) :
    getPermissions ps ≠ GoSlice.nil
    ∧ (getPermissions ps).elems
        = ps.elems.map (fun p => TokenPermissionModel.mk p.Action p.Resource)
    ∧ getPartitionTemplate pt ≠ GoSlice.nil
    ∧ (getPartitionTemplate pt).elems
        = pt.elems.map (fun p => DatabasePartitionTemplateModel.mk p.PartType p.Value)
    ∧ (tokenCreateState tplan tresp).Permissions = getPermissions tresp.Permissions
    ∧ (tokenReadState tplan tresp).Permissions = getPermissions tresp.Permissions
    ∧ (tokenUpdateState tplan tresp).Permissions = getPermissions tresp.Permissions
    ∧ (databaseCreateState dplan dresp).PartitionTemplate
        = getPartitionTemplate dresp.PartitionTemplate
    ∧ (databaseReadState dplan dresp).PartitionTemplate
        = getPartitionTemplate dresp.PartitionTemplate
    ∧ (databaseUpdateState dplan dresp).PartitionTemplate = dplan.PartitionTemplate := by
  refine ⟨?_, ?_, ?_, ?_, rfl, rfl, rfl, rfl, rfl, rfl⟩
  · simp only [getPermissions]
    rw [rangeAppend_some]
    simp [GoSlice.nil]
  · simp only [getPermissions]
    rw [rangeAppend_some]
    simp [GoSlice.elems]
  · simp only [getPartitionTemplate]
    rw [rangeAppend_some]
    simp [GoSlice.nil]
  · simp only [getPartitionTemplate]
    rw [rangeAppend_some]
    simp [GoSlice.elems]

/-! ## Client construction (client.go lines 25–46)

`url.Parse` is modelled for absolute URLs of the shape
`scheme://host[/path]` without userinfo, query or fragment — the shape of
the provider's host configuration.  `URL.String()` for such URLs is the
plain recombination (none of the components used here require
re-escaping). -/

structure GoURL where
  scheme : String
  host : String
  path : String
deriving DecidableEq

def splitScheme : List Char → Option (List Char × List Char)
  | [] => none
  | c :: rest =>
    if c = ':' then some ([], rest)
    else if c = '/' then none
    else
      match splitScheme rest with
      | none => none
      | some (sch, r) => some (c :: sch, r)

def urlParse (s : String) : Option GoURL :=
  match splitScheme s.data with
  | some (sch, '/' :: '/' :: rest) =>
    if sch = [] then none
    else
      some
        { scheme := String.mk sch
          host := String.mk (rest.takeWhile (fun c => c ≠ '/'))
          path := String.mk (rest.dropWhile (fun c => c ≠ '/')) }
  | _ => none

def urlString (u : GoURL) : String := u.scheme ++ "://" ++ u.host ++ u.path

/-- config.go (`ClientConfig`), HTTPClient omitted. -/
structure ClientConfig where
  AccountID : String
  ClusterID : String
  Host : String
  Token : String
deriving DecidableEq

structure ClientModel where
  apiURL : GoURL
  authorization : String
deriving DecidableEq

/-- Go `strings.HasSuffix(s, "/")`. -/
def hasSuffixSlash (s : String) : Bool := s.data.getLast? = some '/'

/-- client.go lines 29–32: append a trailing slash to the host when
absent. -/
def hostAddress (config : ClientConfig) : String :=
  if hasSuffixSlash config.Host then config.Host else config.Host ++ "/"

/-- client.go lines 25–46 (`New`): parse the (slash-terminated) host,
join `/api/v0/accounts/{AccountID}/clusters/{ClusterID}` onto its path
with a trailing slash, and record the bearer token. -/
def NewClient (config : ClientConfig) : Option ClientModel :=
  match urlParse (hostAddress config) with
  | none => none
  | some u =>
    some
      { apiURL :=
          { u with
            path := goPathJoin u.path
                ("/api/v0/accounts/" ++ config.AccountID ++ "/clusters/" ++ config.ClusterID)
              ++ "/" }
        authorization := "Bearer " ++ config.Token }

/-- client.go line 61: every request URL is the base URL string followed
by the operation's relative path. -/
def requestURL (c : ClientModel) (relPath : String) : String :=
  urlString c.apiURL ++ relPath

/-! ## Provider configuration (SDK variant, with the `url` setting)

Terraform attribute values are unknown, null, or a known string;
`ValueString()` of a null/unknown value is the empty string. -/

inductive TFValue : Type where
  | unknown
  | null
  | val (s : String)
deriving DecidableEq

def TFValue.isUnknown : TFValue → Bool
  | .unknown => true
  | _ => false

def TFValue.isNull : TFValue → Bool
  | .null => true
  | _ => false

def TFValue.valueString : TFValue → String
  | .val s => s
  | _ => ""

/-- The environment (`os.Getenv` returns `""` for an unset variable). -/
structure EnvVars where
  accountID : String
  clusterID : String
  token : String
  url : String

structure ProviderConfigModel where
  AccountID : TFValue
  ClusterID : TFValue
  Token : TFValue
  URL : TFValue

/-- Lines 127–146 of the SDK provider's `Configure`: the environment
variable is the default; a non-null configuration value overrides it. -/
def resolveSetting (envValue : String) (configValue : TFValue) : String :=
  if configValue.isNull then envValue else configValue.valueString

def unknownDiagsSDK (config : ProviderConfigModel) : List String :=
  (if config.AccountID.isUnknown then ["Unknown InfluxDB V3 Account ID"] else [])
    ++ (if config.ClusterID.isUnknown then ["Unknown InfluxDB V3 Cluster ID"] else [])
    ++ (if config.Token.isUnknown then ["Unknown InfluxDB V3 Management Token"] else [])
    ++ (if config.URL.isUnknown then ["Unknown InfluxDB V3 Cloud Dedicated URL"] else [])

def missingDiagsSDK (accountID clusterID token url : String) : List String :=
  (if accountID = "" then ["Missing InfluxDB V3 Account ID"] else [])
    ++ (if clusterID = "" then ["Missing InfluxDB V3 Cluster ID"] else [])
    ++ (if token = "" then ["Missing InfluxDB Management Token"] else [])
    ++ (if url = "" then ["Missing InfluxDB Cloud Dedicated URL"] else [])

/-- Outcome of `Configure`: the error-diagnostic summaries added, and the
client handed to resources/data sources when construction went through. -/
structure ConfigureResult where
  diagnostics : List String
  client : Option ClientModel

/-- The phase of the SDK provider's `Configure` after resolution: the
missing-value checks (lines 148–193), then `influxdb3.New`
(lines 204–218). -/
def ConfigureSDKResolved (accountID clusterID token url : String) : ConfigureResult :=
  if missingDiagsSDK accountID clusterID token url ≠ [] then
    { diagnostics := missingDiagsSDK accountID clusterID token url, client := none }
  else
    match NewClient { AccountID := accountID, ClusterID := clusterID,
                      Host := url, Token := token } with
    | none => { diagnostics := ["Unable to Create InfluxDB V3 Client"], client := none }
    | some c => { diagnostics := [], client := some c }

/-- The SDK provider's `Configure` (lines 72–226): unknown-value checks,
env-default/config-override resolution, missing-value checks, then
`influxdb3.New`. -/
def ConfigureSDK (env : EnvVars) (config : ProviderConfigModel) : ConfigureResult :=
  if unknownDiagsSDK config ≠ [] then { diagnostics := unknownDiagsSDK config, client := none }
  else
    ConfigureSDKResolved (resolveSetting env.accountID config.AccountID)
      (resolveSetting env.clusterID config.ClusterID)
      (resolveSetting env.token config.Token)
      (resolveSetting env.url config.URL)

/-! ## UUID parsing (`github.com/google/uuid`, `Parse`)

Modelled byte-for-byte from the library: a 36-character canonical form
with dashes at positions 8, 13, 18, 23; a 45-character `urn:uuid:` form
(case-insensitive prefix); a 38-character braced form (only the leading
brace is stripped — the final character is never inspected, as in the
library); a 32-character plain-hex form.  The result is the list of 16
parsed bytes. -/

def hexVal (c : Char) : Option Nat :=
  if '0' ≤ c ∧ c ≤ '9' then some (c.toNat - 48)
  else if 'a' ≤ c ∧ c ≤ 'f' then some (c.toNat - 87)
  else if 'A' ≤ c ∧ c ≤ 'F' then some (c.toNat - 55)
  else none

def xtob (c1 c2 : Char) : Option Nat :=
  match hexVal c1, hexVal c2 with
  | some h1, some h2 => some (16 * h1 + h2)
  | _, _ => none

def charAt (cs : List Char) (i : Nat) : Char := cs.getD i '#'

def parseCanonical (cs : List Char) : Option (List Nat) :=
  if charAt cs 8 = '-' ∧ charAt cs 13 = '-' ∧ charAt cs 18 = '-' ∧ charAt cs 23 = '-' then
    List.mapM (fun x => xtob (charAt cs x) (charAt cs (x + 1)))
      [0, 2, 4, 6, 9, 11, 14, 16, 19, 21, 24, 26, 28, 30, 32, 34]
  else none

def parseHexPairs : List Char → Option (List Nat)
  | [] => some []
  | c1 :: c2 :: rest =>
    match xtob c1 c2, parseHexPairs rest with
    | some b, some bs => some (b :: bs)
    | _, _ => none
  | _ => none

def uuidParse (s : String) : Option (List Nat) :=
  let cs := s.data
  if cs.length = 36 then parseCanonical cs
  else if cs.length = 45 then
    if (cs.take 9).map Char.toLower = ("urn:uuid:").data then parseCanonical (cs.drop 9)
    else none
  else if cs.length = 38 then parseCanonical (cs.drop 1)
  else if cs.length = 32 then parseHexPairs cs
  else none

/-! ## Provider configuration (management-client variant,
internal/provider/provider.go)

No `url` setting: the server URL is the constant
`INFLUXDB3_HOST + INFLUXDB3_API_ENDPOINT`; after the missing-value checks
the account and cluster ids must parse as UUIDs (lines 189–213);
`NewClientWithResponses` on the constant URL cannot fail. -/

def INFLUXDB3_HOST : String := "https://console.influxdata.com"

def INFLUXDB3_API_ENDPOINT : String := "/api/v0"

structure EnvVars3 where
  accountID : String
  clusterID : String
  token : String

structure ProviderConfigModel3 where
  AccountID : TFValue
  ClusterID : TFValue
  Token : TFValue

/-- provider.go lines 250–254: the data handed to resources — the parsed
account and cluster UUIDs and the configured client (kept here as its
server URL and token). -/
structure ProviderData where
  accountID : List Nat
  clusterID : List Nat
  serverURL : String
  token : String
deriving DecidableEq

def unknownDiagsMgmt (config : ProviderConfigModel3) : List String :=
  (if config.AccountID.isUnknown then ["Unknown InfluxDB V3 Account ID"] else [])
    ++ (if config.ClusterID.isUnknown then ["Unknown InfluxDB V3 Cluster ID"] else [])
    ++ (if config.Token.isUnknown then ["Unknown InfluxDB V3 Management Token"] else [])

def missingDiagsMgmt (accountID clusterID token : String) : List String :=
  (if accountID = "" then ["Missing InfluxDB V3 Account ID"] else [])
    ++ (if clusterID = "" then ["Missing InfluxDB V3 Cluster ID"] else [])
    ++ (if token = "" then ["Missing InfluxDB Management Token"] else [])

structure ConfigureMgmtResult where
  diagnostics : List String
  providerData : Option ProviderData

/-- provider.go lines 84–258 (`Configure`): unknown checks, resolution,
missing checks, then `uuid.Parse` on the account id (on failure an error
diagnostic — whose summary is the source's `Missing InfluxDB V3 Account
ID` — is added and Configure returns), then on the cluster id, then the
client is built and the parsed UUIDs are handed over. -/
def ConfigureMgmtResolved (accountID clusterID token : String) : ConfigureMgmtResult :=
  if missingDiagsMgmt accountID clusterID token ≠ [] then
    { diagnostics := missingDiagsMgmt accountID clusterID token, providerData := none }
  else
    match uuidParse accountID with
    | none => { diagnostics := ["Missing InfluxDB V3 Account ID"], providerData := none }
    | some accountUUID =>
      match uuidParse clusterID with
      | none => { diagnostics := ["Missing InfluxDB V3 Cluster ID"], providerData := none }
      | some clusterUUID =>
        { diagnostics := []
          providerData := some
            { accountID := accountUUID
              clusterID := clusterUUID
              serverURL := INFLUXDB3_HOST ++ INFLUXDB3_API_ENDPOINT
              token := token } }

def ConfigureMgmt (env : EnvVars3) (config : ProviderConfigModel3) : ConfigureMgmtResult :=
  if unknownDiagsMgmt config ≠ [] then
    { diagnostics := unknownDiagsMgmt config, providerData := none }
  else
    ConfigureMgmtResolved (resolveSetting env.accountID config.AccountID)
      (resolveSetting env.clusterID config.ClusterID)
      (resolveSetting env.token config.Token)

/-! ## Splitting and cleaning lemmas for C6 -/

theorem splitSlashAux_no_slash :
    ∀ (l cur : List Char), '/' ∉ l → splitSlashAux cur l = [cur.reverse ++ l] := by
  intro l
  induction l with
  | nil => intro cur h; simp [splitSlashAux]
  | cons c rest ih =>
    intro cur h
    have hc : ¬(c = '/') := fun he => h (by rw [he]; exact List.mem_cons_self '/' rest)
    show splitSlashAux cur (c :: rest) = [cur.reverse ++ c :: rest]
    rw [show splitSlashAux cur (c :: rest) = splitSlashAux (c :: cur) rest by
      simp only [splitSlashAux, if_neg hc]]
    rw [ih (c :: cur) (fun hm => h (List.mem_cons_of_mem c hm))]
    simp

theorem splitSlashAux_append :
    ∀ (l1 cur l2 : List Char), '/' ∉ l1 →
      splitSlashAux cur (l1 ++ '/' :: l2) = (cur.reverse ++ l1) :: splitSlashAux [] l2 := by
  intro l1
  induction l1 with
  | nil => intro cur l2 h; simp [splitSlashAux]
  | cons c rest ih =>
    intro cur l2 h
    have hc : ¬(c = '/') := fun he => h (by rw [he]; exact List.mem_cons_self '/' rest)
    show splitSlashAux cur (c :: (rest ++ '/' :: l2)) = (cur.reverse ++ c :: rest) :: splitSlashAux [] l2
    rw [show splitSlashAux cur (c :: (rest ++ '/' :: l2))
        = splitSlashAux (c :: cur) (rest ++ '/' :: l2) by
      simp only [splitSlashAux, if_neg hc]]
    rw [ih (c :: cur) l2 (fun hm => h (List.mem_cons_of_mem c hm))]
    simp

theorem cleanSegsAux_skip_nil (r : Bool) (acc : List (List Char)) (rest : List (List Char)) :
    cleanSegsAux r acc ([] :: rest) = cleanSegsAux r acc rest := by
  simp [cleanSegsAux]

theorem cleanSegsAux_good (r : Bool) :
    ∀ (segs acc : List (List Char)),
      (∀ s ∈ segs, s ≠ [] ∧ s ≠ ['.'] ∧ s ≠ ['.', '.']) →
      cleanSegsAux r acc segs = acc.reverse ++ segs := by
  intro segs
  induction segs with
  | nil => intro acc _; simp [cleanSegsAux]
  | cons s rest ih =>
    intro acc h
    obtain ⟨hs1, hs2, hs3⟩ := h s (List.mem_cons_self s rest)
    have hcond : ¬(s = [] ∨ s = ['.']) := by
      push_neg
      exact ⟨hs1, hs2⟩
    simp only [cleanSegsAux, if_neg hcond, if_neg hs3]
    rw [ih (s :: acc) (fun x hx => h x (List.mem_cons_of_mem s hx))]
    simp

/-- A path segment usable verbatim: non-empty, not `.` or `..`, and free of
slashes. -/
def goodSeg (s : String) : Prop :=
  s.data ≠ [] ∧ s.data ≠ ['.'] ∧ s.data ≠ ['.', '.'] ∧ '/' ∉ s.data

instance (s : String) : Decidable (goodSeg s) := by
  unfold goodSeg
  infer_instance

theorem apiSuffix_data (A C : String) :
    ("/api/v0/accounts/" ++ A ++ "/clusters/" ++ C).data
      = '/' :: 'a' :: 'p' :: 'i' :: '/' :: 'v' :: '0' :: '/'
        :: 'a' :: 'c' :: 'c' :: 'o' :: 'u' :: 'n' :: 't' :: 's' :: '/'
        :: (A.data ++ '/' :: (['c', 'l', 'u', 's', 't', 'e', 'r', 's'] ++ '/' :: C.data)) := by
  simp only [String.data_append, List.append_assoc]
  rfl

theorem splitSlash_api (A C : String) (hA : '/' ∉ A.data) (hC : '/' ∉ C.data) :
    splitSlash (("/api/v0/accounts/" ++ A ++ "/clusters/" ++ C).data)
      = [[], ['a', 'p', 'i'], ['v', '0'], ['a', 'c', 'c', 'o', 'u', 'n', 't', 's'],
         A.data, ['c', 'l', 'u', 's', 't', 'e', 'r', 's'], C.data] := by
  rw [apiSuffix_data]
  unfold splitSlash
  rw [show ('/' :: 'a' :: 'p' :: 'i' :: '/' :: 'v' :: '0' :: '/'
        :: 'a' :: 'c' :: 'c' :: 'o' :: 'u' :: 'n' :: 't' :: 's' :: '/'
        :: (A.data ++ '/' :: (['c', 'l', 'u', 's', 't', 'e', 'r', 's'] ++ '/' :: C.data)))
      = ([] : List Char) ++ '/' :: ('a' :: 'p' :: 'i' :: '/' :: 'v' :: '0' :: '/'
        :: 'a' :: 'c' :: 'c' :: 'o' :: 'u' :: 'n' :: 't' :: 's' :: '/'
        :: (A.data ++ '/' :: (['c', 'l', 'u', 's', 't', 'e', 'r', 's'] ++ '/' :: C.data)))
      from rfl]
  rw [splitSlashAux_append [] [] _ (by decide)]
  rw [show ('a' :: 'p' :: 'i' :: '/' :: 'v' :: '0' :: '/'
        :: 'a' :: 'c' :: 'c' :: 'o' :: 'u' :: 'n' :: 't' :: 's' :: '/'
        :: (A.data ++ '/' :: (['c', 'l', 'u', 's', 't', 'e', 'r', 's'] ++ '/' :: C.data)))
      = ['a', 'p', 'i'] ++ '/' :: ('v' :: '0' :: '/'
        :: 'a' :: 'c' :: 'c' :: 'o' :: 'u' :: 'n' :: 't' :: 's' :: '/'
        :: (A.data ++ '/' :: (['c', 'l', 'u', 's', 't', 'e', 'r', 's'] ++ '/' :: C.data)))
      from rfl]
  rw [splitSlashAux_append ['a', 'p', 'i'] [] _ (by decide)]
  rw [show ('v' :: '0' :: '/'
        :: 'a' :: 'c' :: 'c' :: 'o' :: 'u' :: 'n' :: 't' :: 's' :: '/'
        :: (A.data ++ '/' :: (['c', 'l', 'u', 's', 't', 'e', 'r', 's'] ++ '/' :: C.data)))
      = ['v', '0'] ++ '/' :: ('a' :: 'c' :: 'c' :: 'o' :: 'u' :: 'n' :: 't' :: 's' :: '/'
        :: (A.data ++ '/' :: (['c', 'l', 'u', 's', 't', 'e', 'r', 's'] ++ '/' :: C.data)))
      from rfl]
  rw [splitSlashAux_append ['v', '0'] [] _ (by decide)]
  rw [show ('a' :: 'c' :: 'c' :: 'o' :: 'u' :: 'n' :: 't' :: 's' :: '/'
        :: (A.data ++ '/' :: (['c', 'l', 'u', 's', 't', 'e', 'r', 's'] ++ '/' :: C.data)))
      = ['a', 'c', 'c', 'o', 'u', 'n', 't', 's'] ++ '/'
        :: (A.data ++ '/' :: (['c', 'l', 'u', 's', 't', 'e', 'r', 's'] ++ '/' :: C.data))
      from rfl]
  rw [splitSlashAux_append ['a', 'c', 'c', 'o', 'u', 'n', 't', 's'] [] _ (by decide)]
  rw [splitSlashAux_append A.data [] _ hA]
  rw [splitSlashAux_append ['c', 'l', 'u', 's', 't', 'e', 'r', 's'] [] _ (by decide)]
  rw [splitSlashAux_no_slash C.data [] hC]
  rfl

theorem string_ne_empty_of_data_cons {s : String} {c : Char} {rest : List Char}
    (h : s.data = c :: rest) : s ≠ "" := by
  intro h0
  rw [h0] at h
  exact absurd h (by simp)

theorem goodSeg_conds {s : String} (h : goodSeg s) :
    s.data ≠ [] ∧ s.data ≠ ['.'] ∧ s.data ≠ ['.', '.'] :=
  ⟨h.1, h.2.1, h.2.2.1⟩

theorem goPathClean_api (A C : String) (hA : goodSeg A) (hC : goodSeg C) :
    goPathClean ("/api/v0/accounts/" ++ A ++ "/clusters/" ++ C)
      = "/api/v0/accounts/" ++ A ++ "/clusters/" ++ C := by
  have hdata := apiSuffix_data A C
  have hne := string_ne_empty_of_data_cons hdata
  have hsplit := splitSlash_api A C hA.2.2.2 hC.2.2.2
  have hroot : isRooted (("/api/v0/accounts/" ++ A ++ "/clusters/" ++ C).data) = true := by
    rw [hdata]
    rfl
  simp only [goPathClean, if_neg hne, hroot, if_pos, hsplit]
  rw [cleanSegsAux_skip_nil]
  rw [cleanSegsAux_good _ _ []
    (by
      intro s hs
      simp only [List.mem_cons, List.not_mem_nil, or_false] at hs
      rcases hs with h | h | h | h | h | h
      · subst h; exact ⟨by decide, by decide, by decide⟩
      · subst h; exact ⟨by decide, by decide, by decide⟩
      · subst h; exact ⟨by decide, by decide, by decide⟩
      · subst h; exact goodSeg_conds hA
      · subst h; exact ⟨by decide, by decide, by decide⟩
      · subst h; exact goodSeg_conds hC)]
  simp only [List.reverse_nil, List.nil_append]
  apply String.ext
  rw [hdata]
  simp [joinSlash, List.append_assoc]

theorem goPathClean_api_doubleSlash (A C : String) (hA : goodSeg A) (hC : goodSeg C) :
    goPathClean ("/" ++ "/" ++ ("/api/v0/accounts/" ++ A ++ "/clusters/" ++ C))
      = "/api/v0/accounts/" ++ A ++ "/clusters/" ++ C := by
  have hdata := apiSuffix_data A C
  have hdata2 : ("/" ++ "/" ++ ("/api/v0/accounts/" ++ A ++ "/clusters/" ++ C)).data
      = '/' :: '/' :: ("/api/v0/accounts/" ++ A ++ "/clusters/" ++ C).data := by
    simp [String.data_append]
  have hne := string_ne_empty_of_data_cons hdata2
  have hsplit := splitSlash_api A C hA.2.2.2 hC.2.2.2
  have hroot : isRooted (("/" ++ "/"
      ++ ("/api/v0/accounts/" ++ A ++ "/clusters/" ++ C)).data) = true := by
    rw [hdata2]
    rfl
  have hsplit2 : splitSlash (("/" ++ "/"
      ++ ("/api/v0/accounts/" ++ A ++ "/clusters/" ++ C)).data)
      = [] :: [] :: splitSlash (("/api/v0/accounts/" ++ A ++ "/clusters/" ++ C).data) := by
    rw [hdata2]
    unfold splitSlash
    rw [show ('/' :: '/' :: ("/api/v0/accounts/" ++ A ++ "/clusters/" ++ C).data)
        = ([] : List Char) ++ '/'
          :: ('/' :: ("/api/v0/accounts/" ++ A ++ "/clusters/" ++ C).data) from rfl]
    rw [splitSlashAux_append [] [] _ (by decide)]
    rw [show ('/' :: ("/api/v0/accounts/" ++ A ++ "/clusters/" ++ C).data)
        = ([] : List Char) ++ '/'
          :: ("/api/v0/accounts/" ++ A ++ "/clusters/" ++ C).data from rfl]
    rw [splitSlashAux_append [] [] _ (by decide)]
    rfl
  simp only [goPathClean, if_neg hne, hroot, if_pos, hsplit2, hsplit]
  rw [cleanSegsAux_skip_nil, cleanSegsAux_skip_nil, cleanSegsAux_skip_nil]
  rw [cleanSegsAux_good _ _ []
    (by
      intro s hs
      simp only [List.mem_cons, List.not_mem_nil, or_false] at hs
      rcases hs with h | h | h | h | h | h
      · subst h; exact ⟨by decide, by decide, by decide⟩
      · subst h; exact ⟨by decide, by decide, by decide⟩
      · subst h; exact ⟨by decide, by decide, by decide⟩
      · subst h; exact goodSeg_conds hA
      · subst h; exact ⟨by decide, by decide, by decide⟩
      · subst h; exact goodSeg_conds hC)]
  simp only [List.reverse_nil, List.nil_append]
  apply String.ext
  rw [hdata]
  simp [joinSlash, List.append_assoc]

theorem goPathJoin_api (p A C : String) (hp : p = "" ∨ p = "/")
    (hA : goodSeg A) (hC : goodSeg C) :
    goPathJoin p ("/api/v0/accounts/" ++ A ++ "/clusters/" ++ C)
      = "/api/v0/accounts/" ++ A ++ "/clusters/" ++ C := by
  have hqne : ("/api/v0/accounts/" ++ A ++ "/clusters/" ++ C) ≠ "" :=
    string_ne_empty_of_data_cons (apiSuffix_data A C)
  rcases hp with hp | hp
  · subst hp
    rw [goPathJoin, if_neg (show ¬(("" : String) ≠ "") by simp), if_pos hqne]
    exact goPathClean_api A C hA hC
  · subst hp
    rw [goPathJoin, if_pos (show ("/" : String) ≠ "" by decide)]
    exact goPathClean_api_doubleSlash A C hA hC

theorem ConfigureSDK_known (env : EnvVars) (config : ProviderConfigModel)
    (h1 : config.AccountID.isUnknown = false) (h2 : config.ClusterID.isUnknown = false)
    (h3 : config.Token.isUnknown = false) (h4 : config.URL.isUnknown = false) :
    ConfigureSDK env config
      = ConfigureSDKResolved (resolveSetting env.accountID config.AccountID)
          (resolveSetting env.clusterID config.ClusterID)
          (resolveSetting env.token config.Token)
          (resolveSetting env.url config.URL) := by
  have hunk : unknownDiagsSDK config = [] := by
    simp [unknownDiagsSDK, h1, h2, h3, h4]
  simp [ConfigureSDK, hunk]

theorem ConfigureSDKResolved_missing (accountID clusterID token url : String)
    (h : missingDiagsSDK accountID clusterID token url ≠ []) :
    ConfigureSDKResolved accountID clusterID token url
      = { diagnostics := missingDiagsSDK accountID clusterID token url, client := none } := by
  simp [ConfigureSDKResolved, h]

/-- **C5.** For each of account_id, cluster_id, token and url the
environment variable is the default and a non-null configuration value
overrides it; when any resolved value is empty, `Configure` adds the
missing-value diagnostic for that setting and does not construct the
client. -/
theorem C5_configure_resolution (env : EnvVars) (config : ProviderConfigModel)
    (h1 : config.AccountID.isUnknown = false) (h2 : config.ClusterID.isUnknown = false)
    (h3 : config.Token.isUnknown = false) (h4 : config.URL.isUnknown = false) :
    (∀ e s, resolveSetting e (TFValue.val s) = s)
    ∧ (∀ e, resolveSetting e TFValue.null = e)
    ∧ (resolveSetting env.accountID config.AccountID = "" →
        "Missing InfluxDB V3 Account ID" ∈ (ConfigureSDK env config).diagnostics
        ∧ (ConfigureSDK env config).client = none)
    ∧ (resolveSetting env.clusterID config.ClusterID = "" →
        "Missing InfluxDB V3 Cluster ID" ∈ (ConfigureSDK env config).diagnostics
        ∧ (ConfigureSDK env config).client = none)
    ∧ (resolveSetting env.token config.Token = "" →
        "Missing InfluxDB Management Token" ∈ (ConfigureSDK env config).diagnostics
        ∧ (ConfigureSDK env config).client = none)
    ∧ (resolveSetting env.url config.URL = "" →
        "Missing InfluxDB Cloud Dedicated URL" ∈ (ConfigureSDK env config).diagnostics
        ∧ (ConfigureSDK env config).client = none) := by
  have hres := ConfigureSDK_known env config h1 h2 h3 h4
  refine ⟨fun e s => rfl, fun e => rfl, ?_, ?_, ?_, ?_⟩
  · intro hempty
    have hmem : "Missing InfluxDB V3 Account ID"
        ∈ missingDiagsSDK (resolveSetting env.accountID config.AccountID)
            (resolveSetting env.clusterID config.ClusterID)
            (resolveSetting env.token config.Token)
            (resolveSetting env.url config.URL) := by
      rw [hempty]
      simp [missingDiagsSDK]
    rw [hres, ConfigureSDKResolved_missing _ _ _ _ (List.ne_nil_of_mem hmem)]
    exact ⟨hmem, rfl⟩
  · intro hempty
    have hmem : "Missing InfluxDB V3 Cluster ID"
        ∈ missingDiagsSDK (resolveSetting env.accountID config.AccountID)
            (resolveSetting env.clusterID config.ClusterID)
            (resolveSetting env.token config.Token)
            (resolveSetting env.url config.URL) := by
      rw [hempty]
      by_cases ha : resolveSetting env.accountID config.AccountID = "" <;>
        simp [missingDiagsSDK, ha]
    rw [hres, ConfigureSDKResolved_missing _ _ _ _ (List.ne_nil_of_mem hmem)]
    exact ⟨hmem, rfl⟩
  · intro hempty
    have hmem : "Missing InfluxDB Management Token"
        ∈ missingDiagsSDK (resolveSetting env.accountID config.AccountID)
            (resolveSetting env.clusterID config.ClusterID)
            (resolveSetting env.token config.Token)
            (resolveSetting env.url config.URL) := by
      rw [hempty]
      by_cases ha : resolveSetting env.accountID config.AccountID = "" <;>
        by_cases hc : resolveSetting env.clusterID config.ClusterID = "" <;>
          simp [missingDiagsSDK, ha, hc]
    rw [hres, ConfigureSDKResolved_missing _ _ _ _ (List.ne_nil_of_mem hmem)]
    exact ⟨hmem, rfl⟩
  · intro hempty
    have hmem : "Missing InfluxDB Cloud Dedicated URL"
        ∈ missingDiagsSDK (resolveSetting env.accountID config.AccountID)
            (resolveSetting env.clusterID config.ClusterID)
            (resolveSetting env.token config.Token)
            (resolveSetting env.url config.URL) := by
      rw [hempty]
      by_cases ha : resolveSetting env.accountID config.AccountID = "" <;>
        by_cases hc : resolveSetting env.clusterID config.ClusterID = "" <;>
          by_cases ht : resolveSetting env.token config.Token = "" <;>
            simp [missingDiagsSDK, ha, hc, ht]
    rw [hres, ConfigureSDKResolved_missing _ _ _ _ (List.ne_nil_of_mem hmem)]
    exact ⟨hmem, rfl⟩

/-- Witness for C5: with every environment variable set and a config that
overrides the url with the empty string, the url resolves empty, the
missing-url diagnostic is reported, and no client is constructed. -/
theorem C5_witness :
    "Missing InfluxDB Cloud Dedicated URL"
      ∈ (ConfigureSDK
          { accountID := "aid", clusterID := "cid", token := "tok", url := "https://h" }
          { AccountID := TFValue.null, ClusterID := TFValue.null,
            Token := TFValue.null, URL := TFValue.val "" }).diagnostics
    ∧ (ConfigureSDK
          { accountID := "aid", clusterID := "cid", token := "tok", url := "https://h" }
          { AccountID := TFValue.null, ClusterID := TFValue.null,
            Token := TFValue.null, URL := TFValue.val "" }).client = none := by
  exact (C5_configure_resolution
    { accountID := "aid", clusterID := "cid", token := "tok", url := "https://h" }
    { AccountID := TFValue.null, ClusterID := TFValue.null,
      Token := TFValue.null, URL := TFValue.val "" }
    rfl rfl rfl rfl).2.2.2.2.2 rfl

theorem ConfigureMgmt_known (env : EnvVars3) (config : ProviderConfigModel3)
    (h1 : config.AccountID.isUnknown = false) (h2 : config.ClusterID.isUnknown = false)
    (h3 : config.Token.isUnknown = false) :
    ConfigureMgmt env config
      = ConfigureMgmtResolved (resolveSetting env.accountID config.AccountID)
          (resolveSetting env.clusterID config.ClusterID)
          (resolveSetting env.token config.Token) := by
  have hunk : unknownDiagsMgmt config = [] := by
    simp [unknownDiagsMgmt, h1, h2, h3]
  simp [ConfigureMgmt, hunk]

/-- **C8.** After the missing-value checks, `Configure` validates the
resolved account and cluster ids with `uuid.Parse`: a non-empty id that is
not a valid UUID yields an error diagnostic and no provider data; when both
parse, the provider data holds exactly the two parsed UUIDs (with the
constant server URL and the resolved token). -/
theorem C8_configure_uuid_validation (env : EnvVars3) (config : ProviderConfigModel3)
    (h1 : config.AccountID.isUnknown = false) (h2 : config.ClusterID.isUnknown = false)
    (h3 : config.Token.isUnknown = false)
    (ha : resolveSetting env.accountID config.AccountID ≠ "")
    (hc : resolveSetting env.clusterID config.ClusterID ≠ "")
    (ht : resolveSetting env.token config.Token ≠ "") :
    (uuidParse (resolveSetting env.accountID config.AccountID) = none →
      (ConfigureMgmt env config).providerData = none
      ∧ "Missing InfluxDB V3 Account ID" ∈ (ConfigureMgmt env config).diagnostics)
    ∧ (∀ ua, uuidParse (resolveSetting env.accountID config.AccountID) = some ua →
        uuidParse (resolveSetting env.clusterID config.ClusterID) = none →
        (ConfigureMgmt env config).providerData = none
        ∧ "Missing InfluxDB V3 Cluster ID" ∈ (ConfigureMgmt env config).diagnostics)
    ∧ (∀ ua uc, uuidParse (resolveSetting env.accountID config.AccountID) = some ua →
        uuidParse (resolveSetting env.clusterID config.ClusterID) = some uc →
        (ConfigureMgmt env config).providerData
          = some { accountID := ua, clusterID := uc,
                   serverURL := INFLUXDB3_HOST ++ INFLUXDB3_API_ENDPOINT,
                   token := resolveSetting env.token config.Token }) := by
  have hres := ConfigureMgmt_known env config h1 h2 h3
  have hmiss : missingDiagsMgmt (resolveSetting env.accountID config.AccountID)
      (resolveSetting env.clusterID config.ClusterID)
      (resolveSetting env.token config.Token) = [] := by
    simp [missingDiagsMgmt, ha, hc, ht]
  refine ⟨?_, ?_, ?_⟩
  · intro hpa
    rw [hres]
    simp [ConfigureMgmtResolved, hmiss, hpa]
  · intro ua hpa hpc
    rw [hres]
    simp [ConfigureMgmtResolved, hmiss, hpa, hpc]
  · intro ua uc hpa hpc
    rw [hres]
    simp [ConfigureMgmtResolved, hmiss, hpa, hpc]

/-- Witness for C8 at concrete ids: a valid account/cluster UUID pair
yields provider data holding exactly the parsed UUIDs; an invalid
account id yields no provider data and the account error diagnostic. -/
theorem C8_witness :
    (ConfigureMgmt { accountID := "", clusterID := "", token := "" }
        { AccountID := TFValue.val "123e4567-e89b-12d3-a456-426614174000",
          ClusterID := TFValue.val "123e4567-e89b-12d3-a456-426614174001",
          Token := TFValue.val "tok" }).providerData
      = some { accountID := [18, 62, 69, 103, 232, 155, 18, 211, 164, 86, 66, 102, 20, 23, 64, 0],
               clusterID := [18, 62, 69, 103, 232, 155, 18, 211, 164, 86, 66, 102, 20, 23, 64, 1],
               serverURL := INFLUXDB3_HOST ++ INFLUXDB3_API_ENDPOINT,
               token := "tok" }
    ∧ (ConfigureMgmt { accountID := "", clusterID := "", token := "" }
        { AccountID := TFValue.val "not-a-uuid",
          ClusterID := TFValue.val "123e4567-e89b-12d3-a456-426614174001",
          Token := TFValue.val "tok" }).providerData = none := by
  constructor
  · exact (C8_configure_uuid_validation
      { accountID := "", clusterID := "", token := "" }
      { AccountID := TFValue.val "123e4567-e89b-12d3-a456-426614174000",
        ClusterID := TFValue.val "123e4567-e89b-12d3-a456-426614174001",
        Token := TFValue.val "tok" }
      rfl rfl rfl (by decide) (by decide) (by decide)).2.2
      [18, 62, 69, 103, 232, 155, 18, 211, 164, 86, 66, 102, 20, 23, 64, 0]
      [18, 62, 69, 103, 232, 155, 18, 211, 164, 86, 66, 102, 20, 23, 64, 1]
      (by decide) (by decide)
  · exact ((C8_configure_uuid_validation
      { accountID := "", clusterID := "", token := "" }
      { AccountID := TFValue.val "not-a-uuid",
        ClusterID := TFValue.val "123e4567-e89b-12d3-a456-426614174001",
        Token := TFValue.val "tok" }
      rfl rfl rfl (by decide) (by decide) (by decide)).1 (by decide)).1

/-- **C6.** For every `ClientConfig` whose host parses, `New` keeps the
host's scheme and authority and sets the path to the host path joined
(in Go `path.Join` fashion) with
`/api/v0/accounts/{AccountID}/clusters/{ClusterID}` plus a trailing slash
(a slash having been appended to the host first when absent); each request
URL is this base string followed by the operation's relative path.  When
the parsed host path is empty or `/` and the ids are plain path segments,
the base path is literally `/api/v0/accounts/{A}/clusters/{C}/`. -/
theorem C6_api_base_url (cfg : ClientConfig) (cm : ClientModel) (u : GoURL)
    (hparse : urlParse (hostAddress cfg) = some u) (h : NewClient cfg = some cm) :
    cm.apiURL.scheme = u.scheme
    ∧ cm.apiURL.host = u.host
    ∧ cm.apiURL.path
        = goPathJoin u.path
            ("/api/v0/accounts/" ++ cfg.AccountID ++ "/clusters/" ++ cfg.ClusterID) ++ "/"
    ∧ (∀ rel, requestURL cm rel = urlString cm.apiURL ++ rel)
    ∧ ((u.path = "" ∨ u.path = "/") → goodSeg cfg.AccountID → goodSeg cfg.ClusterID →
        cm.apiURL.path
          = "/api/v0/accounts/" ++ cfg.AccountID ++ "/clusters/" ++ cfg.ClusterID ++ "/") := by
  rw [NewClient, hparse] at h
  have hcm := (Option.some.injEq _ _).mp h
  subst hcm
  refine ⟨rfl, rfl, rfl, fun rel => rfl, ?_⟩
  intro hp hA hC
  show goPathJoin u.path
      ("/api/v0/accounts/" ++ cfg.AccountID ++ "/clusters/" ++ cfg.ClusterID) ++ "/" = _
  rw [goPathJoin_api u.path cfg.AccountID cfg.ClusterID hp hA hC]

/-- Witness for C6: a host without trailing slash gets one appended, and
the resulting base URL and a request URL come out as the spec writes
them. -/
theorem C6_witness :
    NewClient { AccountID := "aid", ClusterID := "cid",
                Host := "https://console.influxdata.com", Token := "t" }
      = some { apiURL := { scheme := "https", host := "console.influxdata.com",
                           path := "/api/v0/accounts/aid/clusters/cid/" },
               authorization := "Bearer t" }
    ∧ requestURL
        { apiURL := { scheme := "https", host := "console.influxdata.com",
                      path := "/api/v0/accounts/aid/clusters/cid/" },
          authorization := "Bearer t" } "databases"
      = "https://console.influxdata.com/api/v0/accounts/aid/clusters/cid/databases" := by
  constructor
  · decide
  · have h := C6_api_base_url
      { AccountID := "aid", ClusterID := "cid",
        Host := "https://console.influxdata.com", Token := "t" }
      { apiURL := { scheme := "https", host := "console.influxdata.com",
                    path := "/api/v0/accounts/aid/clusters/cid/" },
        authorization := "Bearer t" }
      { scheme := "https", host := "console.influxdata.com", path := "/" }
      (by decide) (by decide)
    rw [h.2.2.2.1 "databases"]
    decide

end Influx
